import Mathlib

/-!
Verification development for the Chat-Bot repository (src/BackEnd/server.js).

The backend is an Express server with one POST route `/generate-text1`.
It keeps a FIFO request queue drained by a single worker flag, spaces
upstream calls by `RATE_LIMIT_DELAY`, calls the Gemini API through
`generateTextFromGemini` (which retries HTTP 429 with exponential backoff
up to `MAX_RETRIES`), and on success appends two records (user message,
then AI message) to a MongoDB collection, returning a JSON body with the
echoed prompt, a timestamp and the generated text.

This file shallowly embeds that logic: machine time is `Nat`
(milliseconds), JavaScript `undefined` is `Option.none`, a thrown
JavaScript error is an explicit error value, and the asynchronous queue
is modelled both as an untimed event-step machine (for the re-entrancy
and FIFO invariants) and as a deterministic timed simulator (for the
spacing properties).
-/

deriving instance DecidableEq for Except

namespace ChatBot

/-- Source line: `const RATE_LIMIT_DELAY = 5000;` -/
def RATE_LIMIT_DELAY : Nat := 5000

/-- Source line: `const MAX_RETRIES = 3;` -/
def MAX_RETRIES : Nat := 3

/-- Source line: `const INITIAL_RETRY_DELAY = 1000;` -/
def INITIAL_RETRY_DELAY : Nat := 1000

/-- One element of `candidates[0].content.parts` in the Gemini response
body; its `text` property may be absent (JS `undefined`). -/
structure GPart where
  text : Option String
deriving DecidableEq

/-- The `content` object of a candidate; its `parts` property may be
absent. -/
structure GContent where
  parts : Option (List GPart)
deriving DecidableEq

/-- One element of the `candidates` array; its `content` property may be
absent. -/
structure GCandidate where
  content : Option GContent
deriving DecidableEq

/-- The `response.data` JSON returned by the Gemini API on HTTP success;
the `candidates` property may be absent. -/
structure GeminiData where
  candidates : Option (List GCandidate)
deriving DecidableEq

/-- Outcome of a single `axios.post` to the Gemini API:
HTTP success with a JSON body, an HTTP error status with a body
(`error.response` present), or a network/timeout failure with no
response object. -/
inductive UpstreamResult where
  | success (data : GeminiData)
  | httpError (status : Nat) (body : String)
  | noResponse (msg : String)
deriving DecidableEq

/-- A thrown JavaScript error as discriminated by the route's catch
block: `withResponse` carries `error.response.status` and
`error.response.data`; `mongo` is an error whose `name` is
`MongoError`; `plain` is any other `Error` (only `message` is used). -/
inductive JsError where
  | withResponse (status : Nat) (data : String)
  | mongo (msg : String)
  | plain (msg : String)
deriving DecidableEq

/-- The check `error.response?.status === 429`. -/
def is429 : JsError → Bool
  | .withResponse 429 _ => true
  | _ => false

/-- The validation in `generateTextFromGemini`:
`!response.data.candidates || !response.data.candidates[0] ||
!response.data.candidates[0].content`. An absent property is falsy, an
empty array is truthy but its element `[0]` is `undefined`, hence falsy. -/
def validResponse (d : GeminiData) : Bool :=
  match d.candidates with
  | none => false
  | some [] => false
  | some (c :: _) => c.content.isSome

/-- The access `response.data.candidates[0].content.parts[0].text`.
Reading a property of `undefined` throws a TypeError (modelled as
`.error`); reading an absent property of an object yields `undefined`
(modelled as `.ok none`). -/
def extractText (d : GeminiData) : Except String (Option String) :=
  match d.candidates with
  | none => .error "TypeError"
  | some [] => .error "TypeError"
  | some (c :: _) =>
    match c.content with
    | none => .error "TypeError"
    | some ct =>
      match ct.parts with
      | none => .error "TypeError"
      | some [] => .error "TypeError"
      | some (p :: _) => .ok p.text

/-- One attempt of `generateTextFromGemini`: the upstream call indexed by
the attempt number, followed by the validation and the extraction of the
candidate text. On HTTP success with an invalid body the function throws
`new Error("Invalid response format from Gemini API")` (a plain error);
a TypeError raised while building the return value is likewise a plain
error caught by the same catch block. On an HTTP error the axios error
(with its response) propagates; on a network failure a plain error
propagates. The successful return value is
`{ choices: [{ message: { content: <text> } }] }`, of which only the
possibly-undefined `content` matters downstream. -/
def genAttempt (upstream : Nat → UpstreamResult) (n : Nat) :
    Except JsError (Option String) :=
  match upstream n with
  | .success d =>
    if validResponse d then
      match extractText d with
      | .ok t => .ok t
      | .error _ => .error (.plain "TypeError")
    else
      .error (.plain "Invalid response format from Gemini API")
  | .httpError s body => .error (.withResponse s body)
  | .noResponse m => .error (.plain m)

/-- Trace of one `generateTextFromGemini(prompt, retryCount)` call:
the backoff delays waited (in ms, in order), the number of upstream
attempts made, and the result (`.ok` with the possibly-undefined
candidate text, or the thrown error). -/
structure GenTrace where
  delays : List Nat
  attempts : Nat
  result : Except JsError (Option String)
deriving DecidableEq

/-- The retry loop of `generateTextFromGemini`, written with the number
of retries still allowed (`remaining = MAX_RETRIES - retryCount`) as the
structurally decreasing argument. A 429 with `retryCount < MAX_RETRIES`
waits `INITIAL_RETRY_DELAY * 2 ^ retryCount` and recurses with
`retryCount + 1`; a 429 at the cap throws
`new Error("Rate limit exceeded. Please try again later.")` — a plain
error, the original axios error (and its response) is discarded; any
other error is rethrown unchanged. -/
def genLoop (upstream : Nat → UpstreamResult) : Nat → Nat → GenTrace
  | retryCount, 0 =>
    match genAttempt upstream retryCount with
    | .ok t => ⟨[], 1, .ok t⟩
    | .error e =>
      if is429 e then
        ⟨[], 1, .error (.plain "Rate limit exceeded. Please try again later.")⟩
      else ⟨[], 1, .error e⟩
  | retryCount, r + 1 =>
    match genAttempt upstream retryCount with
    | .ok t => ⟨[], 1, .ok t⟩
    | .error e =>
      if is429 e then
        let d := INITIAL_RETRY_DELAY * 2 ^ retryCount
        let rest := genLoop upstream (retryCount + 1) r
        ⟨d :: rest.delays, rest.attempts + 1, rest.result⟩
      else ⟨[], 1, .error e⟩

/-- `generateTextFromGemini(userPrompt, retryCount)`: the guard
`retryCount < MAX_RETRIES` holds exactly when
`MAX_RETRIES - retryCount > 0`, so the fuel below is faithful to the
source recursion. -/
def generateTextFromGemini (upstream : Nat → UpstreamResult)
    (retryCount : Nat) : GenTrace :=
  genLoop upstream retryCount (MAX_RETRIES - retryCount)

/-- A document of the `Ai` Mongo collection
(`{ role: String, content: String, intime: Date default Date.now }`);
`content` is `Option String` because the saved AI content is
`response.choices[0].message.content`, which can be `undefined`. -/
structure Record where
  role : String
  content : Option String
  intime : Nat
deriving DecidableEq

/-- The JSON bodies the route can send. -/
inductive RespBody where
  | promptRequired
  | success (userInput : String) (time : Nat) (gpt3Response : Option String)
  | rateLimit (error details : String) (retryAfter : Nat)
  | geminiApiError (details : String)
  | dbError (details : String)
  | genericError (details : String)
deriving DecidableEq

/-- An HTTP response: status code and JSON body. -/
structure HttpResponse where
  status : Nat
  body : RespBody
deriving DecidableEq

/-- The catch block of `app.post('/generate-text1')`, in source order:
`error.response?.status === 429` first, then `error.response` (pass the
upstream status and data through), then `error.name === 'MongoError'`,
then the generic 500. -/
def handleError : JsError → HttpResponse
  | .withResponse s d =>
    if s = 429 then
      ⟨429, .rateLimit "Rate limit exceeded" "Please wait a moment and try again"
        (RATE_LIMIT_DELAY / 1000)⟩
    else ⟨s, .geminiApiError d⟩
  | .mongo m => ⟨500, .dbError m⟩
  | .plain m => ⟨500, .genericError m⟩

/-- Everything observable about one handled request: the HTTP response
sent, the records appended to the `Ai` collection (in append order), and
how many upstream calls were made. -/
structure RouteResult where
  response : HttpResponse
  saved : List Record
  upstreamCalls : Nat
deriving DecidableEq

/-- The `/generate-text1` handler for one request. `prompt` is the
request body's `prompt` property (`none` when absent); `!prompt`
rejects both an absent and an empty prompt with 400 before anything is
queued. On a fulfilled upstream promise the handler builds and saves
the user record (role `"user"`, content = prompt, `intime` defaulted at
construction time `userTime`), then the AI record (role `"Alan-Ai"`,
content = the candidate text, `intime` defaulted at `aiTime`), and
responds `{ userInput, time: userMessage.intime, gpt3Response }`.
On a rejected promise nothing is saved and the catch block responds. -/
def postGenerateText1 (prompt : Option String)
    (upstream : Nat → UpstreamResult) (userTime aiTime : Nat) :
    RouteResult :=
  match prompt with
  | none => ⟨⟨400, .promptRequired⟩, [], 0⟩
  | some p =>
    if p = "" then ⟨⟨400, .promptRequired⟩, [], 0⟩
    else
      let g := generateTextFromGemini upstream 0
      match g.result with
      | .error e => ⟨handleError e, [], g.attempts⟩
      | .ok t =>
        let userMessage : Record := ⟨"user", some p, userTime⟩
        let geminiResponseMessage : Record := ⟨"Alan-Ai", t, aiTime⟩
        ⟨⟨200, .success p userTime t⟩,
          [userMessage, geminiResponseMessage], g.attempts⟩

/-! ### Untimed queue machine

`processQueue` re-entrancy and FIFO order. The mutable state of the
source is `requestQueue` (push at the back, `shift()` from the front)
and the boolean `isProcessing`. `inFlight` records the requests that
have been dequeued and whose `generateTextFromGemini` has not yet
settled; `started` is the dequeue order; `arrived` the arrival order. -/

structure QState where
  queue : List Nat
  processing : Bool
  inFlight : List Nat
  started : List Nat
  arrived : List Nat
deriving DecidableEq

/-- The initial state: empty queue, `isProcessing = false`. -/
def initQState : QState := ⟨[], false, [], [], []⟩

/-- The body of `processQueue`: return unchanged if `isProcessing` or the
queue is empty; otherwise set the flag, `shift()` the head and begin
processing it. -/
def callProcessQueue (s : QState) : QState :=
  if s.processing then s
  else
    match s.queue with
    | [] => s
    | j :: rest =>
      ⟨rest, true, s.inFlight ++ [j], s.started ++ [j], s.arrived⟩

/-- The two event-loop events that touch the queue state: a request
arriving at the route (push then call `processQueue`), and the in-flight
upstream promise settling (the `finally` block: clear the flag, then
call `processQueue` again). A settle event with nothing in flight is a
no-op. -/
inductive QEvent where
  | arrive (j : Nat)
  | settle
deriving DecidableEq

/-- One event-loop step. -/
def qStep (s : QState) : QEvent → QState
  | .arrive j =>
    callProcessQueue ⟨s.queue ++ [j], s.processing, s.inFlight,
      s.started, s.arrived ++ [j]⟩
  | .settle =>
    match s.inFlight with
    | [] => s
    | _ => callProcessQueue ⟨s.queue, false, [], s.started, s.arrived⟩

/-- Run a sequence of events from the initial state. -/
def runEvents (events : List QEvent) : QState :=
  events.foldl qStep initQState

/-- The state invariant: `isProcessing` is exactly "something is in
flight", at most one request is in flight, and the dequeue order
followed by the pending queue is the arrival order. -/
def QInv (s : QState) : Prop :=
  s.processing = !s.inFlight.isEmpty ∧ s.inFlight.length ≤ 1 ∧
    s.started ++ s.queue = s.arrived

/-! ### Timed queue simulator

Deterministic simulation of `processQueue` draining already-queued
requests, with virtual time in milliseconds. Each job carries the
upstream behaviour of its attempts and the wall-clock duration of each
attempt. -/

/-- A queued request together with the behaviour of the upstream API on
each of its attempts and the duration of each attempt. -/
structure TimedJob where
  upstream : Nat → UpstreamResult
  duration : Nat → Nat

/-- The wait in `processQueue`: with `now = clock` and
`lastRequestTime = last`, if `now - lastRequestTime < RATE_LIMIT_DELAY`
the worker sleeps `RATE_LIMIT_DELAY - (now - lastRequestTime)` and the
upstream call starts at `last + RATE_LIMIT_DELAY`; otherwise it starts
immediately. -/
def startTime (clock last : Nat) : Nat :=
  if clock < last + RATE_LIMIT_DELAY then last + RATE_LIMIT_DELAY else clock

/-- Timed trace of `generateTextFromGemini` for one job: the list of
upstream call intervals (start, finish), the time at which the promise
settles, and whether it fulfilled. Attempt `retryCount` runs over
`[t, t + duration retryCount]`; a retried 429 waits
`INITIAL_RETRY_DELAY * 2 ^ retryCount` after the failed attempt
finishes; the cap and rethrow behaviour are those of `genLoop`. -/
def runGenLoop (j : TimedJob) :
    Nat → Nat → Nat → List (Nat × Nat) × Nat × Bool
  | t, retryCount, 0 => ([(t, t + j.duration retryCount)], t + j.duration retryCount,
      (genAttempt j.upstream retryCount).isOk)
  | t, retryCount, r + 1 =>
    let tEnd := t + j.duration retryCount
    match genAttempt j.upstream retryCount with
    | .ok _ => ([(t, tEnd)], tEnd, true)
    | .error e =>
      if is429 e then
        let rest :=
          runGenLoop j (tEnd + INITIAL_RETRY_DELAY * 2 ^ retryCount)
            (retryCount + 1) r
        ((t, tEnd) :: rest.1, rest.2)
      else ([(t, tEnd)], tEnd, false)

/-- The timed run of one `generateTextFromGemini(prompt)` call starting
at time `t`. -/
def runGen (j : TimedJob) (t : Nat) : List (Nat × Nat) × Nat × Bool :=
  runGenLoop j t 0 MAX_RETRIES

/-- Drain a list of queued jobs one at a time: wait out the rate-limit
interval, run the upstream call with its retries, and — only when the
call fulfilled — update `lastRequestTime` to the completion time
(`lastRequestTime = Date.now()` sits after the `await` in the `try`
block, so a rejected call leaves it unchanged). Returns the
concatenated upstream call intervals. -/
def runQueue : List TimedJob → Nat → Nat → List (Nat × Nat)
  | [], _, _ => []
  | j :: js, clock, last =>
    let s := startTime clock last
    let r := runGen j s
    let newLast := if r.2.2 then r.2.1 else last
    r.1 ++ runQueue js r.2.1 newLast

/-! ### Concrete behaviours used to instantiate the theorems -/

/-- An upstream that answers HTTP 429 to every attempt. -/
def all429 : Nat → UpstreamResult := fun _ => .httpError 429 "quota exceeded"

/-- A well-formed Gemini body whose first candidate part carries text. -/
def okData : GeminiData := ⟨some [⟨some ⟨some [⟨some "ok"⟩]⟩⟩]⟩

/-- A Gemini body that passes the source's validation (the first
candidate has `content`) but whose first part has no `text` property. -/
def badData : GeminiData := ⟨some [⟨some ⟨some [⟨none⟩]⟩⟩]⟩

/-- An upstream that answers HTTP 503 to every attempt. -/
def u503 : Nat → UpstreamResult := fun _ => .httpError 503 "busy"

/-- A job whose single attempt succeeds after 100 ms. -/
def okJob : TimedJob := ⟨fun _ => .success okData, fun _ => 100⟩

/-- A job whose every attempt is answered 429, each lasting 100 ms. -/
def cexJob : TimedJob := ⟨all429, fun _ => 100⟩

/-! ### Helper lemmas -/

/-- The retry loop performs at most `remaining` retries. -/
theorem genLoop_delays_length_le (v : Nat → UpstreamResult) (rem : Nat) :
    ∀ rc, (genLoop v rc rem).delays.length ≤ rem := by
  induction rem with
  | zero =>
    intro rc
    cases h : genAttempt v rc with
    | ok t => simp [genLoop, h]
    | error e =>
      by_cases h429 : is429 e = true <;> simp [genLoop, h, h429]
  | succ r ih =>
    intro rc
    cases h : genAttempt v rc with
    | ok t => simp [genLoop, h]
    | error e =>
      by_cases h429 : is429 e = true
      · simpa [genLoop, h, h429] using ih (rc + 1)
      · simp [genLoop, h, h429]

/-- `processQueue` preserves the queue-state invariant. -/
theorem callProcessQueue_inv (s : QState) (h : QInv s) :
    QInv (callProcessQueue s) := by
  obtain ⟨h1, h2, h3⟩ := h
  unfold callProcessQueue
  by_cases hp : s.processing
  · simpa [hp] using ⟨h1, h2, h3⟩
  · cases hq : s.queue with
    | nil => simpa [hp, hq] using ⟨h1, h2, h3⟩
    | cons j rest =>
      have hp0 : s.processing = false := by simpa using hp
      have hfl : s.inFlight = [] := by
        rw [hp0] at h1
        cases hfe : s.inFlight with
        | nil => rfl
        | cons a l => rw [hfe] at h1; simp at h1
      refine ⟨by simp [hp, hq], by simp [hp, hq, hfl], ?_⟩
      simp only [hp, hq, Bool.false_eq_true, if_false]
      rw [List.append_assoc]
      simpa [← hq] using h3

/-- Each event-loop step preserves the queue-state invariant. -/
theorem qStep_inv (s : QState) (ev : QEvent) (h : QInv s) :
    QInv (qStep s ev) := by
  cases ev with
  | arrive j =>
    apply callProcessQueue_inv
    obtain ⟨h1, h2, h3⟩ := h
    refine ⟨h1, h2, ?_⟩
    rw [← List.append_assoc, h3]
  | settle =>
    cases hfe : s.inFlight with
    | nil => simpa [qStep, hfe] using h
    | cons a l =>
      obtain ⟨h1, h2, h3⟩ := h
      have : qStep s .settle
          = callProcessQueue ⟨s.queue, false, [], s.started, s.arrived⟩ := by
        simp [qStep, hfe]
      rw [this]
      exact callProcessQueue_inv _ ⟨by simp, by simp, h3⟩

/-- The invariant holds after any sequence of events from the initial
state. -/
theorem runEvents_inv (events : List QEvent) : QInv (runEvents events) := by
  have general : ∀ (l : List QEvent) (s : QState),
      QInv s → QInv (l.foldl qStep s) := by
    intro l
    induction l with
    | nil => intro s hs; exact hs
    | cons e t ih => intro s hs; exact ih _ (qStep_inv s e hs)
  exact general events initQState ⟨rfl, Nat.zero_le 1, rfl⟩

/-- The rate-limit wait never lets a call start before
`lastRequestTime + RATE_LIMIT_DELAY`. -/
theorem startTime_lb (clock last : Nat) :
    last + RATE_LIMIT_DELAY ≤ startTime clock last := by
  unfold startTime
  split <;> omega

/-- Every upstream call interval of a timed retry run starts no earlier
than the run itself. -/
theorem runGenLoop_start_le (j : TimedJob) (rem : Nat) :
    ∀ t rc, ∀ e ∈ (runGenLoop j t rc rem).1, t ≤ e.1 := by
  induction rem with
  | zero =>
    intro t rc e he
    simp [runGenLoop] at he
    rw [he]
  | succ r ih =>
    intro t rc e he
    cases ha : genAttempt j.upstream rc with
    | ok v =>
      simp [runGenLoop, ha] at he
      rw [he]
    | error er =>
      by_cases h429 : is429 er = true
      · simp only [runGenLoop, ha, h429, if_true] at he
        rw [List.mem_cons] at he
        rcases he with he | he
        · rw [he]
        · have := ih (t + j.duration rc + INITIAL_RETRY_DELAY * 2 ^ rc)
            (rc + 1) e he
          omega
      · simp [runGenLoop, ha, h429] at he
        rw [he]

/-- A timed retry run settles no earlier than it starts. -/
theorem runGenLoop_le_settle (j : TimedJob) (rem : Nat) :
    ∀ t rc, t ≤ (runGenLoop j t rc rem).2.1 := by
  induction rem with
  | zero =>
    intro t rc
    simp [runGenLoop]
  | succ r ih =>
    intro t rc
    cases ha : genAttempt j.upstream rc with
    | ok v => simp [runGenLoop, ha]
    | error er =>
      by_cases h429 : is429 er = true
      · have := ih (t + j.duration rc + INITIAL_RETRY_DELAY * 2 ^ rc) (rc + 1)
        simp only [runGenLoop, ha, h429, if_true]
        omega
      · simp [runGenLoop, ha, h429]

/-- Every upstream call of a drained queue starts at least
`RATE_LIMIT_DELAY` after the `lastRequestTime` the drain began with. -/
theorem runQueue_start_lb (js : List TimedJob) :
    ∀ clock last, ∀ e ∈ runQueue js clock last,
      last + RATE_LIMIT_DELAY ≤ e.1 := by
  induction js with
  | nil =>
    intro clock last e he
    simp [runQueue] at he
  | cons j js ih =>
    intro clock last e he
    simp only [runQueue, List.mem_append] at he
    rcases he with h | h
    · calc last + RATE_LIMIT_DELAY ≤ startTime clock last :=
            startTime_lb clock last
        _ ≤ e.1 := runGenLoop_start_le j MAX_RETRIES (startTime clock last) 0 e h
    · have hset : startTime clock last
          ≤ (runGen j (startTime clock last)).2.1 :=
        runGenLoop_le_settle j MAX_RETRIES (startTime clock last) 0
      have hst := startTime_lb clock last
      have hih := ih (runGen j (startTime clock last)).2.1
        (if (runGen j (startTime clock last)).2.2 = true
          then (runGen j (startTime clock last)).2.1 else last) e h
      split at hih <;> omega

/-! ### Claim theorems -/

/-- C1: the claim says a request whose upstream answers HTTP 429 on the
initial attempt and on every retry gets back an HTTP 429 with a
rate-limit JSON body and a retryAfter hint. The code refutes it: after
the retry cap, `generateTextFromGemini` throws a fresh plain
`Error("Rate limit exceeded. Please try again later.")` with no
`response` property, so the route's `error.response?.status === 429`
branch (which would produce exactly that typed body, second conjunct)
never fires and the caller receives the generic HTTP 500. -/
theorem exhausted_429_yields_generic_500 :
    postGenerateText1 (some "hi") all429 10 20
      = ⟨⟨500, .genericError "Rate limit exceeded. Please try again later."⟩,
          [], 4⟩
    ∧ handleError (.withResponse 429 "quota exceeded")
      = ⟨429, .rateLimit "Rate limit exceeded"
            "Please wait a moment and try again" 5⟩ := by
  exact ⟨by decide, by decide⟩

/-- C2: against an upstream that answers HTTP 429 to the initial attempt
and to every retry, `generateTextFromGemini` waits 1000, 2000, 4000 ms
(doubling from `INITIAL_RETRY_DELAY`), makes exactly `MAX_RETRIES + 1 = 4`
upstream attempts (3 retries), then stops retrying and fails with the
rate-limit error; and against every upstream behaviour the number of
retries is at most `MAX_RETRIES`. -/
theorem retry_backoff_schedule (u : Nat → UpstreamResult)
    (h : ∀ n, n ≤ MAX_RETRIES → ∃ b, u n = .httpError 429 b) :
    (generateTextFromGemini u 0).delays = [1000, 2000, 4000]
    ∧ (generateTextFromGemini u 0).attempts = MAX_RETRIES + 1
    ∧ (generateTextFromGemini u 0).result
        = .error (.plain "Rate limit exceeded. Please try again later.")
    ∧ ∀ (v : Nat → UpstreamResult) (rc : Nat),
        (generateTextFromGemini v rc).delays.length ≤ MAX_RETRIES := by
  obtain ⟨b0, h0⟩ := h 0 (by norm_num [MAX_RETRIES])
  obtain ⟨b1, h1⟩ := h 1 (by norm_num [MAX_RETRIES])
  obtain ⟨b2, h2⟩ := h 2 (by norm_num [MAX_RETRIES])
  obtain ⟨b3, h3⟩ := h 3 (by norm_num [MAX_RETRIES])
  have e0 : genAttempt u 0 = .error (.withResponse 429 b0) := by
    simp [genAttempt, h0]
  have e1 : genAttempt u 1 = .error (.withResponse 429 b1) := by
    simp [genAttempt, h1]
  have e2 : genAttempt u 2 = .error (.withResponse 429 b2) := by
    simp [genAttempt, h2]
  have e3 : genAttempt u 3 = .error (.withResponse 429 b3) := by
    simp [genAttempt, h3]
  refine ⟨?_, ?_, ?_, ?_⟩
  · simp [generateTextFromGemini, MAX_RETRIES, genLoop, e0, e1, e2, e3,
      is429, INITIAL_RETRY_DELAY]
  · simp [generateTextFromGemini, MAX_RETRIES, genLoop, e0, e1, e2, e3, is429]
  · simp [generateTextFromGemini, MAX_RETRIES, genLoop, e0, e1, e2, e3, is429]
  · intro v rc
    exact le_trans (genLoop_delays_length_le v (MAX_RETRIES - rc) rc)
      (Nat.sub_le MAX_RETRIES rc)

/-- Witness for C2 at a concrete all-429 upstream. -/
theorem retry_backoff_schedule_witness :
    (∀ n, n ≤ MAX_RETRIES → ∃ b, all429 n = .httpError 429 b)
    ∧ (generateTextFromGemini all429 0).delays = [1000, 2000, 4000] :=
  ⟨fun _ _ => ⟨"quota exceeded", rfl⟩,
    (retry_backoff_schedule all429
      (fun _ _ => ⟨"quota exceeded", rfl⟩)).1⟩

/-- C4: counterexample — a successful exchange's second saved record has
role "Alan-Ai", which is neither "assistant" nor "user", refuting that
roles are drawn from the enumeration given by the claim and that the
second record of an exchange has role 'assistant'. -/
theorem assistant_role_cex :
    (postGenerateText1 (some "hi") (fun _ => .success okData) 5 7).saved
      = [⟨"user", some "hi", 5⟩, ⟨"Alan-Ai", some "ok", 7⟩]
    ∧ "Alan-Ai" ≠ "assistant" ∧ "Alan-Ai" ≠ "user" := by decide

/-- C4 amended: every chat message record appended by the route has a
role field drawn from the enumeration \x7buser, Alan-Ai\x7d, a content
field and a timestamp, and the second record of each exchange has role
"Alan-Ai". -/
theorem saved_roles_enumeration (p : Option String)
    (u : Nat → UpstreamResult) (userTime aiTime : Nat) :
    (postGenerateText1 p u userTime aiTime).saved = []
    ∨ ∃ pp t, p = some pp
        ∧ (postGenerateText1 p u userTime aiTime).saved
          = [⟨"user", some pp, userTime⟩, ⟨"Alan-Ai", t, aiTime⟩] := by
  cases p with
  | none => left; rfl
  | some pp =>
    by_cases hp : pp = ""
    · left; simp [postGenerateText1, hp]
    · cases hres : (generateTextFromGemini u 0).result with
      | error e => left; simp [postGenerateText1, hp, hres]
      | ok t =>
        right
        exact ⟨pp, t, rfl, by simp [postGenerateText1, hp, hres]⟩

/-- C5: a request that completes successfully appends exactly two
records, in order the user message (role "user", content = the prompt,
timestamp taken at its construction) then the AI message, and the
second record's timestamp is at least the first record's (`Date.now()`
is non-decreasing across the two constructions). -/
theorem success_appends_two_records (pp : String) (u : Nat → UpstreamResult)
    (userTime aiTime : Nat) (t : Option String) (hp : pp ≠ "")
    (ht : userTime ≤ aiTime)
    (hok : (generateTextFromGemini u 0).result = .ok t) :
    (postGenerateText1 (some pp) u userTime aiTime).saved
      = [⟨"user", some pp, userTime⟩, ⟨"Alan-Ai", t, aiTime⟩]
    ∧ ∀ r1 r2 : Record,
        (postGenerateText1 (some pp) u userTime aiTime).saved = [r1, r2] →
          r1.role = "user" ∧ r1.intime ≤ r2.intime := by
  have hs : (postGenerateText1 (some pp) u userTime aiTime).saved
      = [⟨"user", some pp, userTime⟩, ⟨"Alan-Ai", t, aiTime⟩] := by
    simp [postGenerateText1, hp, hok]
  refine ⟨hs, ?_⟩
  intro r1 r2 h12
  rw [hs] at h12
  have hr1 : r1 = ⟨"user", some pp, userTime⟩ := by
    injection h12 with ha hb
    exact ha.symm
  have hr2 : r2 = ⟨"Alan-Ai", t, aiTime⟩ := by
    injection h12 with ha hb
    injection hb with hc hd
    exact hc.symm
  subst hr1; subst hr2
  exact ⟨rfl, ht⟩

/-- Witness for C5 at a concrete succeeding upstream. -/
theorem success_appends_two_records_witness :
    ("hi" ≠ "" ∧ (5 : Nat) ≤ 7
      ∧ (generateTextFromGemini (fun _ => .success okData) 0).result
          = .ok (some "ok"))
    ∧ (postGenerateText1 (some "hi") (fun _ => .success okData) 5 7).saved
        = [⟨"user", some "hi", 5⟩, ⟨"Alan-Ai", some "ok", 7⟩] :=
  ⟨⟨by decide, by decide, by decide⟩,
    (success_appends_two_records "hi" (fun _ => .success okData) 5 7
      (some "ok") (by decide) (by decide) (by decide)).1⟩

/-- C6: a request whose body has an absent or empty prompt is answered
HTTP 400 with the error body, appends no records, and makes zero
upstream calls. -/
theorem empty_prompt_rejected (p : Option String)
    (u : Nat → UpstreamResult) (userTime aiTime : Nat)
    (hp : p = none ∨ p = some "") :
    postGenerateText1 p u userTime aiTime = ⟨⟨400, .promptRequired⟩, [], 0⟩ := by
  rcases hp with h | h <;> subst h
  · rfl
  · simp [postGenerateText1]

/-- Witness for C6 at the empty prompt. -/
theorem empty_prompt_rejected_witness :
    ((some "" : Option String) = none ∨ (some "" : Option String) = some "")
    ∧ postGenerateText1 (some "") all429 1 2 = ⟨⟨400, .promptRequired⟩, [], 0⟩ :=
  ⟨Or.inr rfl, empty_prompt_rejected (some "") all429 1 2 (Or.inr rfl)⟩

/-- C7: when the upstream call fails with an HTTP status other than 429,
the route passes that status through together with the upstream body in
the error details, and appends nothing; a failure with no upstream
status at all yields the generic HTTP 500. -/
theorem upstream_error_passthrough (pp : String) (u : Nat → UpstreamResult)
    (userTime aiTime : Nat) (hp : pp ≠ "") :
    (∀ s d, s ≠ 429 →
      (generateTextFromGemini u 0).result = .error (.withResponse s d) →
        (postGenerateText1 (some pp) u userTime aiTime).response
            = ⟨s, .geminiApiError d⟩
        ∧ (postGenerateText1 (some pp) u userTime aiTime).saved = [])
    ∧ ∀ m, (generateTextFromGemini u 0).result = .error (.plain m) →
        (postGenerateText1 (some pp) u userTime aiTime).response
          = ⟨500, .genericError m⟩ := by
  constructor
  · intro s d hs hres
    constructor
    · simp [postGenerateText1, hp, hres, handleError, hs]
    · simp [postGenerateText1, hp, hres]
  · intro m hres
    simp [postGenerateText1, hp, hres, handleError]

/-- Witness for C7 at a concrete 503 upstream. -/
theorem upstream_error_passthrough_witness :
    ("hi" ≠ ""
      ∧ (503 : Nat) ≠ 429
      ∧ (generateTextFromGemini u503 0).result
          = .error (.withResponse 503 "busy"))
    ∧ (postGenerateText1 (some "hi") u503 1 2).response
        = ⟨503, .geminiApiError "busy"⟩ :=
  ⟨⟨by decide, by decide, by decide⟩,
    ((upstream_error_passthrough "hi" u503 1 2 (by decide)).1 503 "busy"
      (by decide) (by decide)).1⟩

/-- C9: counterexample — the Gemini body `badData` passes the source's
validation (its first candidate has `content`) yet its first part has no
`text` property, so the request succeeds with HTTP 200 while
`gpt3Response` is `undefined`, refuting that the generated text is never
undefined. -/
theorem gpt3Response_undefined_cex :
    validResponse badData = true
    ∧ (postGenerateText1 (some "hi") (fun _ => .success badData) 5 7).response
        = ⟨200, .success "hi" 5 none⟩ := by decide

/-- C9 amended: a successful request is answered HTTP 200 with a JSON
body carrying the echoed prompt, the user-record timestamp, and a
`gpt3Response` field equal to `candidates[0].content.parts[0].text` of
the upstream body — which is present when that part carries text but is
`undefined` when it does not, since the validation only checks that the
first candidate has `content`. -/
theorem success_response_shape (pp : String) (d : GeminiData)
    (userTime aiTime : Nat) (t : Option String) (hp : pp ≠ "")
    (hv : validResponse d = true) (he : extractText d = .ok t) :
    postGenerateText1 (some pp) (fun _ => .success d) userTime aiTime
      = ⟨⟨200, .success pp userTime t⟩,
          [⟨"user", some pp, userTime⟩, ⟨"Alan-Ai", t, aiTime⟩], 1⟩ := by
  have ha : genAttempt (fun _ => .success d) 0 = .ok t := by
    simp [genAttempt, hv, he]
  have hg : generateTextFromGemini (fun _ => .success d) 0 = ⟨[], 1, .ok t⟩ := by
    simp [generateTextFromGemini, MAX_RETRIES, genLoop, ha]
  simp [postGenerateText1, hp, hg]

/-- Witness for C9 (amended) at a text-carrying body. -/
theorem success_response_shape_witness :
    ("hi" ≠ "" ∧ validResponse okData = true
      ∧ extractText okData = .ok (some "ok"))
    ∧ postGenerateText1 (some "hi") (fun _ => .success okData) 5 7
        = ⟨⟨200, .success "hi" 5 (some "ok")⟩,
            [⟨"user", some "hi", 5⟩, ⟨"Alan-Ai", some "ok", 7⟩], 1⟩ :=
  ⟨⟨by decide, by decide, by decide⟩,
    success_response_shape "hi" okData 5 7 (some "ok") (by decide)
      (by decide) (by decide)⟩

/-- C10: a request whose upstream call fails (after any retries) appends
no records at all: both saves sit after the resolved promise, so the
catch block runs with nothing stored. -/
theorem no_records_on_upstream_failure (p : Option String)
    (u : Nat → UpstreamResult) (userTime aiTime : Nat) (e : JsError)
    (herr : (generateTextFromGemini u 0).result = .error e) :
    (postGenerateText1 p u userTime aiTime).saved = [] := by
  cases p with
  | none => rfl
  | some pp =>
    by_cases hp : pp = ""
    · simp [postGenerateText1, hp]
    · simp [postGenerateText1, hp, herr]

/-- C8: after any sequence of event-loop events, at most one request is
in flight (the `isProcessing` flag blocks re-entrant `processQueue`
calls), and the dequeue order followed by the pending queue equals the
arrival order, so requests are drained one at a time in FIFO order. -/
theorem single_flight_fifo (events : List QEvent) :
    (runEvents events).inFlight.length ≤ 1
    ∧ (runEvents events).started ++ (runEvents events).queue
        = (runEvents events).arrived :=
  ⟨(runEvents_inv events).2.1, (runEvents_inv events).2.2⟩

/-- C3: counterexample — the claim says any two consecutive upstream
calls are separated by at least RATE_LIMIT_DELAY = 5000 ms from the
previous call's completion to the next call's start. A single queued
request whose attempts are all answered 429 makes consecutive upstream
calls (its retries) separated by only the 1000 ms backoff: the first
call completes at 100100 and the second starts at 101100. -/
theorem upstream_call_spacing_cex :
    runQueue [cexJob] 100000 0
      = [(100000, 100100), (101100, 101200), (103200, 103300),
          (107300, 107400)]
    ∧ 101100 < 100100 + RATE_LIMIT_DELAY := by decide

/-- C3 amended: the minimum spacing holds between top-level queue items
whose predecessor fulfilled: when the dequeued job's upstream
processing fulfils at some time T (`lastRequestTime` is updated to T
only then), every upstream call made for the remaining queued jobs
starts at or after T + RATE_LIMIT_DELAY. Retries inside one job are
spaced only by the exponential backoff, and after a rejected job
`lastRequestTime` is left unchanged. -/
theorem spacing_after_successful_call (j : TimedJob) (js : List TimedJob)
    (clock last : Nat)
    (hok : (runGen j (startTime clock last)).2.2 = true) :
    runQueue (j :: js) clock last
      = (runGen j (startTime clock last)).1
        ++ runQueue js (runGen j (startTime clock last)).2.1
            (runGen j (startTime clock last)).2.1
    ∧ ∀ e ∈ runQueue js (runGen j (startTime clock last)).2.1
          (runGen j (startTime clock last)).2.1,
        (runGen j (startTime clock last)).2.1 + RATE_LIMIT_DELAY ≤ e.1 := by
  constructor
  · simp [runQueue, hok]
  · intro e he
    exact runQueue_start_lb js (runGen j (startTime clock last)).2.1
      (runGen j (startTime clock last)).2.1 e he

/-- Witness for C3 (amended): a fulfilled job settling at 10100 forces
the next job's call to start at 15100 = 10100 + RATE_LIMIT_DELAY. -/
theorem spacing_after_successful_call_witness :
    (runGen okJob (startTime 10000 0)).2.2 = true
    ∧ (runGen okJob (startTime 10000 0)).2.1 + RATE_LIMIT_DELAY ≤ 15100 :=
  ⟨by decide,
    (spacing_after_successful_call okJob [okJob] 10000 0 (by decide)).2
      (15100, 15200) (by decide)⟩

/-- Witness for C10 at the all-429 upstream. -/
theorem no_records_on_upstream_failure_witness :
    (generateTextFromGemini all429 0).result
        = .error (.plain "Rate limit exceeded. Please try again later.")
    ∧ (postGenerateText1 (some "hi") all429 10 20).saved = [] :=
  ⟨by decide,
    no_records_on_upstream_failure (some "hi") all429 10 20
      (.plain "Rate limit exceeded. Please try again later.") (by decide)⟩

end ChatBot
